import Mathlib

/-!
Shallow embedding of the wikipedia-demo Go web server (src/main.go):
the search response data model, the pagination view model `Search` with
its methods, the search client `searchWikipedia`, and the two HTTP
handlers `indexHandler` and `searchHandler` together with the
`handlerWithError` wrapper. Network and template side effects are
passed in explicitly as parameters; machine integers are modelled as
unbounded `Int` (no value in the claims approaches the 64-bit range),
and `math.Ceil` over `float64` is modelled as the exact ceiling over ℚ.
-/

/-- Embedding of one element of the `query.search` JSON array
(`WikipediaSearchResponse.Query.Search` in src/main.go). The
`time.Time` timestamp is modelled as its RFC3339 string. -/
structure SearchResult where
  Ns : Int
  Title : String
  PageID : Int
  Size : Int
  WordCount : Int
  Snippet : String
  Timestamp : String
  deriving DecidableEq, Repr

/-- Embedding of the anonymous `continue` struct of
`WikipediaSearchResponse` in src/main.go. -/
structure ContinueInfo where
  Continue : String
  Sroffset : Int
  deriving DecidableEq, Repr

/-- Embedding of the anonymous `searchinfo` struct of
`WikipediaSearchResponse` in src/main.go. -/
structure SearchInfo where
  TotalHits : Int
  deriving DecidableEq, Repr

/-- Embedding of the anonymous `query` struct of
`WikipediaSearchResponse` in src/main.go. -/
structure QueryInfo where
  Search : List SearchResult
  SearchInfo : SearchInfo
  deriving DecidableEq, Repr

/-- Embedding of `WikipediaSearchResponse` (src/main.go lines 29-49). -/
structure WikipediaSearchResponse where
  BatchComplete : String
  Continue : ContinueInfo
  Query : QueryInfo
  deriving DecidableEq, Repr

/-- Embedding of the `Search` view model (src/main.go lines 51-56).
The Go `Results` field is a pointer to the decoded response; here it is
the response value itself. -/
structure Search where
  Query : String
  TotalPages : Int
  NextPage : Int
  Results : WikipediaSearchResponse
  deriving DecidableEq, Repr

/-- Embedding of `Search.IsLastPage` (src/main.go lines 58-60):
`return s.NextPage >= s.TotalPages`. -/
def Search.IsLastPage (s : Search) : Bool :=
  s.NextPage ≥ s.TotalPages

/-- Embedding of `Search.CurrentPage` (src/main.go lines 62-68):
returns `NextPage` when it equals 1 and `NextPage - 1` otherwise. -/
def Search.CurrentPage (s : Search) : Int :=
  if s.NextPage = 1 then s.NextPage else s.NextPage - 1

/-- Embedding of `Search.PreviousPage` (src/main.go lines 70-72):
`return s.CurrentPage() - 1`. -/
def Search.PreviousPage (s : Search) : Int :=
  s.CurrentPage - 1

/-- Embedding of the `TotalPages` computation of `searchHandler`
(src/main.go line 216): `int(math.Ceil(float64(totalHits) /
float64(pageSize)))`, with the `float64` division modelled as exact
division in ℚ; for the magnitudes involved (hit counts and page size
20) the `float64` computation is exact, and the `int(...)` truncation
is the identity on the nonnegative integer-valued ceiling. -/
def computeTotalPages (totalHits pageSize : Int) : Int :=
  ⌈(totalHits : ℚ) / (pageSize : ℚ)⌉

deriving instance DecidableEq for Except

/-- Embedding of the error values that can travel through the call
chain of src/main.go, one constructor per source of `error`:
`strconv.Atoi` failure (line 192), `HTTPClient.Get` failure (line 132),
the non-200 status error (lines 139-146), `io.ReadAll` failure
(line 148), `json.Unmarshal` failure (line 155), `tpl.Execute` failure
(lines 109, 222) and `buf.WriteTo` failure (lines 114, 227). -/
inductive GoError where
  | paramError (input : String)
  | transportError (msg : String)
  | apiError (dump : String)
  | readError (msg : String)
  | decodeError (msg : String)
  | renderError (msg : String)
  | writeError (msg : String)
  deriving DecidableEq, Repr

/-- Embedding of the `Error()` string of each error value, as written
by `http.Error` in `handlerWithError.ServeHTTP` (src/main.go line 82).
The non-200 case carries the format string of src/main.go line 143 and
the `strconv.Atoi` case the message format of the Go standard library;
the remaining cases carry their underlying message verbatim. -/
def GoError.message : GoError → String
  | .paramError input => "strconv.Atoi: parsing \"" ++ input ++ "\": invalid syntax"
  | .transportError m => m
  | .apiError dump => "non 200 OK response from Wikipedia API: " ++ dump
  | .readError m => m
  | .decodeError m => m
  | .renderError m => m
  | .writeError m => m

/-- Embedding of `strconv.Atoi` as called on `pageNum` (src/main.go
line 192): an optional sign followed by at least one base-10 digit;
anything else is a syntax error. The int64 range check of the Go
standard library is omitted, since no claim involves values anywhere
near the 64-bit range. -/
def atoi (s : String) : Except GoError Int :=
  let p :=
    match s.toList with
    | '-' :: rest => (true, rest)
    | '+' :: rest => (false, rest)
    | cs => (false, cs)
  if p.2.isEmpty then .error (.paramError s)
  else
    match p.2.foldlM
        (fun a c => if c.isDigit then some (a * 10 + ((c.toNat : Int) - 48)) else none)
        (0 : Int) with
    | none => .error (.paramError s)
    | some n => .ok (if p.1 then -n else n)

example : atoi "abc" = .error (.paramError "abc") := by decide
example : atoi "1" = .ok 1 := by decide
example : atoi "0" = .ok 0 := by decide
example : atoi "-3" = .ok (-3) := by decide
example : atoi "" = .error (.paramError "") := by decide

/-- Embedding of what `io.ReadAll` plus `json.Unmarshal` can see in the
body of an upstream response (src/main.go lines 148-158): the read can
fail, the bytes can fail to unmarshal into `WikipediaSearchResponse`,
or they decode into a response value. -/
inductive UpstreamBody where
  | readFailure (msg : String)
  | malformed (msg : String)
  | wellFormed (resp : WikipediaSearchResponse)
  deriving DecidableEq, Repr

/-- Embedding of the outcome of `HTTPClient.Get` (src/main.go line
132): either a transport-level failure (timeout, DNS, connection
refused) or an HTTP response with a status code, the dump that
`httputil.DumpResponse` would produce for it, and its body. -/
inductive UpstreamResult where
  | transportFailure (msg : String)
  | response (statusCode : Nat) (dump : String) (body : UpstreamBody)
  deriving DecidableEq, Repr

/-- Embedding of `searchWikipedia` (src/main.go lines 119-161), with
the single network call replaced by the explicit `upstream` outcome:
a `Get` failure is returned as is; a non-`http.StatusOK` (200) status
returns the error wrapping the dumped response; otherwise the body is
read in full and JSON-decoded, each failure returning its own error. -/
def searchWikipedia (upstream : UpstreamResult) :
    Except GoError WikipediaSearchResponse :=
  match upstream with
  | .transportFailure m => .error (.transportError m)
  | .response statusCode dump body =>
    if statusCode ≠ 200 then .error (.apiError dump)
    else
      match body with
      | .readFailure m => .error (.readError m)
      | .malformed m => .error (.decodeError m)
      | .wellFormed resp => .ok resp

/-- Embedding of the `Search` literal built by `searchHandler`
(src/main.go lines 211-218) from the query, the decoded response and
the parsed `nextPage`, with `pageSize = 20` (line 197) and
`totalHits = searchResponse.Query.SearchInfo.TotalHits` (line 211). -/
def buildSearch (searchQuery : String)
    (searchResponse : WikipediaSearchResponse) (nextPage : Int) : Search :=
  { Query := searchQuery
    Results := searchResponse
    TotalPages := computeTotalPages searchResponse.Query.SearchInfo.TotalHits 20
    NextPage := nextPage + 1 }

/-- Record of one invocation of the search client with the arguments
`searchHandler` passes at src/main.go line 201. -/
structure ClientCall where
  query : String
  pageSize : Int
  offset : Int
  deriving DecidableEq, Repr

/-- Observable outcome of one run of `searchHandler`: the error value
the handler returns (`.ok ()` for a nil error), the search-client
invocation with its arguments if one happened, and the bytes the
handler wrote to the response writer. -/
structure SearchHandlerTrace where
  result : Except GoError Unit
  clientCall : Option ClientCall
  written : String
  deriving DecidableEq, Repr

/-- Embedding of `searchHandler` (src/main.go lines 163-235). The
request is given by its two query parameters (`params.Get` returns the
empty string for an absent parameter); the network call outcome and
the template execution `tpl.Execute` are explicit parameters. Steps,
in source order: default `page` to "1" when empty (lines 172-175),
parse it with `strconv.Atoi` and return the error on failure (lines
192-195), compute `resultsOffset = (nextPage - 1) * pageSize` with
`pageSize = 20` (lines 197-199), call the search client and return its
error on failure (lines 201-204), build the `Search` model (lines
211-218), render into a buffer and return the error on failure (lines
220-225), then write the buffer to the response (line 227). Logging
calls have no observable effect and are omitted. -/
def searchHandler (searchQuery pageParam : String)
    (upstream : UpstreamResult)
    (render : Search → Except String String) : SearchHandlerTrace :=
  let pageNum := if pageParam = "" then "1" else pageParam
  match atoi pageNum with
  | .error e => { result := .error e, clientCall := none, written := "" }
  | .ok nextPage =>
    let pageSize : Int := 20
    let resultsOffset := (nextPage - 1) * pageSize
    let call : ClientCall :=
      { query := searchQuery, pageSize := pageSize, offset := resultsOffset }
    match searchWikipedia upstream with
    | .error e => { result := .error e, clientCall := some call, written := "" }
    | .ok searchResponse =>
      match render (buildSearch searchQuery searchResponse nextPage) with
      | .error m =>
        { result := .error (.renderError m), clientCall := some call, written := "" }
      | .ok html =>
        { result := .ok (), clientCall := some call, written := html }

/-- Embedding of the final HTTP response the client sees: status code
and body. -/
structure HttpResponse where
  status : Nat
  body : String
  deriving DecidableEq, Repr

/-- Embedding of `handlerWithError.ServeHTTP` (src/main.go lines
76-85) applied to a `searchHandler` run: when the handler returned an
error, `http.Error` appends the error text plus a newline to whatever
the handler wrote and sets status 500; otherwise the response is the
bytes the handler wrote with the default status 200. -/
def handlerWithError (t : SearchHandlerTrace) : HttpResponse :=
  match t.result with
  | .error e => { status := 500, body := t.written ++ e.message ++ "\n" }
  | .ok _ => { status := 200, body := t.written }

/-- Observable outcome of one run of `indexHandler`: the returned
error value, whether `tpl.Execute` was invoked, the response status
and the bytes written. -/
structure IndexHandlerTrace where
  result : Except GoError Unit
  renderInvoked : Bool
  status : Nat
  written : String
  deriving DecidableEq, Repr

/-- Embedding of `indexHandler` (src/main.go lines 101-117). For any
URL path other than "/" it writes the `http.NotFound` response (status
404, body "404 page not found" plus newline) and returns nil without
touching the template; for "/" it executes the template into a buffer,
returns the error on failure, and otherwise writes the buffer with the
default status 200. The template execution on nil data is the explicit
`render` parameter. -/
def indexHandler (path : String)
    (render : Except String String) : IndexHandlerTrace :=
  if path ≠ "/" then
    { result := .ok (), renderInvoked := false, status := 404
      written := "404 page not found\n" }
  else
    match render with
    | .error m =>
      { result := .error (.renderError m), renderInvoked := true, status := 200
        written := "" }
    | .ok html =>
      { result := .ok (), renderInvoked := true, status := 200, written := html }

/-- Concrete decoded response used by witnesses: 55 total hits and no
result rows. -/
def sampleResponse : WikipediaSearchResponse :=
  { BatchComplete := ""
    Continue := { Continue := "-||", Sroffset := 20 }
    Query := { Search := [], SearchInfo := { TotalHits := 55 } } }

/-- C1: for every totalHits ≥ 0 and pageSize > 0, the view model total
page count equals the ceiling of totalHits divided by pageSize, and it
is zero exactly when totalHits is zero. -/
theorem totalPages_ceil_spec (totalHits pageSize : Int)
    (h0 : 0 ≤ totalHits) (h1 : 0 < pageSize) :
    computeTotalPages totalHits pageSize = ⌈(totalHits : ℚ) / (pageSize : ℚ)⌉ ∧
    (computeTotalPages totalHits pageSize = 0 ↔ totalHits = 0) := by
  refine ⟨rfl, ?_⟩
  unfold computeTotalPages
  constructor
  · intro h
    by_contra hne
    have ht : (0:ℚ) < (totalHits : ℚ) := by
      have : 0 < totalHits := lt_of_le_of_ne h0 (Ne.symm hne)
      exact_mod_cast this
    have hq : (0:ℚ) < (pageSize : ℚ) := by exact_mod_cast h1
    have hpos : (0:ℚ) < (totalHits : ℚ) / (pageSize : ℚ) := div_pos ht hq
    have := Int.ceil_pos.mpr hpos
    omega
  · intro h
    subst h
    simp

/-- C1 witness at totalHits 55, pageSize 20. -/
theorem totalPages_ceil_spec_witness :
    (0:Int) ≤ 55 ∧ (0:Int) < 20 ∧
    (computeTotalPages 55 20 = ⌈((55:Int) : ℚ) / ((20:Int) : ℚ)⌉ ∧
     (computeTotalPages 55 20 = 0 ↔ (55:Int) = 0)) :=
  ⟨by decide, by decide, totalPages_ceil_spec 55 20 (by decide) (by decide)⟩

/-- C2: for every requestedPage ≥ 1, the view model built for it has
NextPage = requestedPage + 1, CurrentPage = requestedPage and
PreviousPage = requestedPage - 1. -/
theorem buildSearch_navigation (searchQuery : String)
    (resp : WikipediaSearchResponse) (requestedPage : Int)
    (h : 1 ≤ requestedPage) :
    (buildSearch searchQuery resp requestedPage).NextPage = requestedPage + 1 ∧
    (buildSearch searchQuery resp requestedPage).CurrentPage = requestedPage ∧
    (buildSearch searchQuery resp requestedPage).PreviousPage = requestedPage - 1 := by
  have hne : requestedPage + 1 ≠ 1 := by omega
  refine ⟨rfl, ?_, ?_⟩ <;>
    simp [buildSearch, Search.CurrentPage, Search.PreviousPage, hne]

/-- C2 witness at requestedPage 1. -/
theorem buildSearch_navigation_witness :
    (1:Int) ≤ 1 ∧
    ((buildSearch "golang" sampleResponse 1).NextPage = 1 + 1 ∧
     (buildSearch "golang" sampleResponse 1).CurrentPage = 1 ∧
     (buildSearch "golang" sampleResponse 1).PreviousPage = 1 - 1) :=
  ⟨le_refl 1, buildSearch_navigation "golang" sampleResponse 1 (le_refl 1)⟩

/-- C3: IsLastPage is true exactly when NextPage ≥ TotalPages, and in
particular whenever TotalPages = 0 and NextPage ≥ 0. -/
theorem isLastPage_spec (s : Search) :
    (s.IsLastPage = true ↔ s.TotalPages ≤ s.NextPage) ∧
    (s.TotalPages = 0 → 0 ≤ s.NextPage → s.IsLastPage = true) := by
  constructor
  · simp [Search.IsLastPage, ge_iff_le]
  · intro h0 hn
    simp [Search.IsLastPage, ge_iff_le]
    omega

/-- C3 witness at a view model with TotalPages 0 and NextPage 5. -/
theorem isLastPage_spec_witness :
    ((Search.mk "go" 0 5 sampleResponse).IsLastPage = true ↔
      (Search.mk "go" 0 5 sampleResponse).TotalPages ≤
        (Search.mk "go" 0 5 sampleResponse).NextPage) ∧
    ((Search.mk "go" 0 5 sampleResponse).TotalPages = 0 →
      0 ≤ (Search.mk "go" 0 5 sampleResponse).NextPage →
      (Search.mk "go" 0 5 sampleResponse).IsLastPage = true) :=
  isLastPage_spec (Search.mk "go" 0 5 sampleResponse)

/-- C4: when the effective page parameter does not parse as an
integer, the handler returns the parse error itself, the search client
is never invoked, and the wrapper turns the error into a 500 response
whose body is the error text. -/
theorem invalidPage_no_client_call (searchQuery pageParam : String)
    (upstream : UpstreamResult) (render : Search → Except String String)
    (e : GoError)
    (h : atoi (if pageParam = "" then "1" else pageParam) = .error e) :
    (searchHandler searchQuery pageParam upstream render).result = .error e ∧
    (searchHandler searchQuery pageParam upstream render).clientCall = none ∧
    handlerWithError (searchHandler searchQuery pageParam upstream render) =
      { status := 500, body := e.message ++ "\n" } := by
  simp [searchHandler, h, handlerWithError]

/-- C4 witness at page parameter "abc". -/
theorem invalidPage_no_client_call_witness :
    atoi (if "abc" = "" then "1" else "abc") =
      .error (.paramError "abc") ∧
    ((searchHandler "golang" "abc" (.transportFailure "t")
        (fun _ => .ok "page")).result = .error (.paramError "abc") ∧
     (searchHandler "golang" "abc" (.transportFailure "t")
        (fun _ => .ok "page")).clientCall = none ∧
     handlerWithError (searchHandler "golang" "abc" (.transportFailure "t")
        (fun _ => .ok "page")) =
       { status := 500, body := (GoError.paramError "abc").message ++ "\n" }) :=
  ⟨by decide,
   invalidPage_no_client_call "golang" "abc" (.transportFailure "t")
     (fun _ => .ok "page") (.paramError "abc") (by decide)⟩

/-- C5: when the effective page parameter parses as n, the search
client is invoked with page size 20 and offset (n - 1) * 20, and an
absent or empty page parameter means n = 1. -/
theorem pageDefault_and_offset (searchQuery pageParam : String)
    (upstream : UpstreamResult) (render : Search → Except String String)
    (n : Int)
    (h : atoi (if pageParam = "" then "1" else pageParam) = .ok n) :
    (pageParam = "" → n = 1) ∧
    (searchHandler searchQuery pageParam upstream render).clientCall =
      some { query := searchQuery, pageSize := 20, offset := (n - 1) * 20 } := by
  constructor
  · intro hp
    subst hp
    have e1 : atoi "1" = .ok 1 := by decide
    simp at h
    rw [e1] at h
    simpa using h.symm
  · simp only [searchHandler, h]
    rcases hws : searchWikipedia upstream with e | resp
    · simp
    · rcases hr : render (buildSearch searchQuery resp n) with m | html <;>
        simp [hr]

/-- C5 witness at an empty page parameter. -/
theorem pageDefault_and_offset_witness :
    atoi (if "" = "" then "1" else "") = .ok 1 ∧
    (("" : String) = "" → (1:Int) = 1) ∧
    (searchHandler "golang" ""
        (.response 200 "dump" (.wellFormed sampleResponse))
        (fun _ => .ok "page")).clientCall =
      some { query := "golang", pageSize := 20, offset := ((1:Int) - 1) * 20 } :=
  ⟨by decide,
   (pageDefault_and_offset "golang" ""
      (.response 200 "dump" (.wellFormed sampleResponse))
      (fun _ => .ok "page") 1 (by decide)).1,
   (pageDefault_and_offset "golang" ""
      (.response 200 "dump" (.wellFormed sampleResponse))
      (fun _ => .ok "page") 1 (by decide)).2⟩

/-- C6: a non-200 upstream status makes the search client fail with
the API error carrying the dumped response, whose message embeds the
dump; the handler then returns that error and writes nothing. -/
theorem upstream_non200_apiError (searchQuery pageParam : String)
    (statusCode : Nat) (dump : String) (body : UpstreamBody)
    (render : Search → Except String String) (n : Int)
    (hs : statusCode ≠ 200)
    (hp : atoi (if pageParam = "" then "1" else pageParam) = .ok n) :
    searchWikipedia (.response statusCode dump body) = .error (.apiError dump) ∧
    (GoError.apiError dump).message =
      "non 200 OK response from Wikipedia API: " ++ dump ∧
    (searchHandler searchQuery pageParam
        (.response statusCode dump body) render).result = .error (.apiError dump) ∧
    (searchHandler searchQuery pageParam
        (.response statusCode dump body) render).written = "" := by
  have hw : searchWikipedia (.response statusCode dump body) =
      .error (.apiError dump) := by
    simp [searchWikipedia, hs]
  refine ⟨hw, rfl, ?_, ?_⟩ <;> simp [searchHandler, hp, hw]

/-- C6 witness at upstream status 503. -/
theorem upstream_non200_apiError_witness :
    (503 : Nat) ≠ 200 ∧
    atoi (if "1" = "" then "1" else "1") = .ok 1 ∧
    (searchWikipedia (.response 503 "HTTP/1.1 503" (.malformed "x")) =
       .error (.apiError "HTTP/1.1 503") ∧
     (GoError.apiError "HTTP/1.1 503").message =
       "non 200 OK response from Wikipedia API: " ++ "HTTP/1.1 503" ∧
     (searchHandler "golang" "1"
        (.response 503 "HTTP/1.1 503" (.malformed "x"))
        (fun _ => .ok "page")).result = .error (.apiError "HTTP/1.1 503") ∧
     (searchHandler "golang" "1"
        (.response 503 "HTTP/1.1 503" (.malformed "x"))
        (fun _ => .ok "page")).written = "") :=
  ⟨by decide, by decide,
   upstream_non200_apiError "golang" "1" 503 "HTTP/1.1 503" (.malformed "x")
     (fun _ => .ok "page") 1 (by decide) (by decide)⟩

/-- C7: a 200 upstream response is read in full and JSON-decoded into
the response shape; a malformed body yields the decode error, which is
a different error kind from the API-status and transport errors. -/
theorem decode_error_distinct (resp : WikipediaSearchResponse) (dump m : String) :
    searchWikipedia (.response 200 dump (.wellFormed resp)) = .ok resp ∧
    searchWikipedia (.response 200 dump (.malformed m)) =
      .error (.decodeError m) ∧
    (∀ d, GoError.decodeError m ≠ GoError.apiError d) ∧
    (∀ t, GoError.decodeError m ≠ GoError.transportError t) := by
  refine ⟨by simp [searchWikipedia], by simp [searchWikipedia], ?_, ?_⟩ <;>
    intro x hx <;> cases hx

/-- C8: rendering goes to an in-memory buffer before any response
write, so a template-execution failure makes the handler return the
render error with zero bytes written to the client; the same holds for
the index handler. -/
theorem render_failure_no_output (searchQuery pageParam : String)
    (upstream : UpstreamResult) (render : Search → Except String String)
    (n : Int) (resp : WikipediaSearchResponse) (m : String)
    (hp : atoi (if pageParam = "" then "1" else pageParam) = .ok n)
    (hu : searchWikipedia upstream = .ok resp)
    (hr : render (buildSearch searchQuery resp n) = .error m) :
    (searchHandler searchQuery pageParam upstream render).result =
      .error (.renderError m) ∧
    (searchHandler searchQuery pageParam upstream render).written = "" ∧
    (indexHandler "/" (.error m)).result = .error (.renderError m) ∧
    (indexHandler "/" (.error m)).written = "" := by
  refine ⟨?_, ?_, rfl, rfl⟩ <;> simp [searchHandler, hp, hu, hr]

/-- C8 witness with a template execution that always fails. -/
theorem render_failure_no_output_witness :
    atoi (if "" = "" then "1" else "") = .ok 1 ∧
    searchWikipedia (.response 200 "dump" (.wellFormed sampleResponse)) =
      .ok sampleResponse ∧
    (fun (_ : Search) => (.error "boom" : Except String String))
        (buildSearch "golang" sampleResponse 1) = .error "boom" ∧
    ((searchHandler "golang" ""
        (.response 200 "dump" (.wellFormed sampleResponse))
        (fun _ => .error "boom")).result = .error (.renderError "boom") ∧
     (searchHandler "golang" ""
        (.response 200 "dump" (.wellFormed sampleResponse))
        (fun _ => .error "boom")).written = "" ∧
     (indexHandler "/" (.error "boom")).result = .error (.renderError "boom") ∧
     (indexHandler "/" (.error "boom")).written = "") :=
  ⟨by decide, by decide, rfl,
   render_failure_no_output "golang" ""
     (.response 200 "dump" (.wellFormed sampleResponse))
     (fun _ => .error "boom") 1 sampleResponse "boom"
     (by decide) (by decide) rfl⟩

/-- C9: the index handler renders only for the exact path "/"; any
other path gets the not-found response, no template execution and a
nil returned error. -/
theorem index_notFound_no_render (path : String)
    (render : Except String String) (h : path ≠ "/") :
    (indexHandler path render).result = .ok () ∧
    (indexHandler path render).renderInvoked = false ∧
    (indexHandler path render).status = 404 := by
  simp [indexHandler, h]

/-- C9 witness at path "/unknown". -/
theorem index_notFound_no_render_witness :
    ("/unknown" : String) ≠ "/" ∧
    ((indexHandler "/unknown" (.ok "shell")).result = .ok () ∧
     (indexHandler "/unknown" (.ok "shell")).renderInvoked = false ∧
     (indexHandler "/unknown" (.ok "shell")).status = 404) :=
  ⟨by decide, index_notFound_no_render "/unknown" (.ok "shell") (by decide)⟩

/-- C10: a page parameter of "0" passes parsing unvalidated: the
search client is invoked with offset -20, and the view model built
from the successful response has NextPage = 1, so CurrentPage is 1
rather than 0. -/
theorem pageZero_negative_offset (searchQuery : String)
    (upstream : UpstreamResult) (render : Search → Except String String)
    (resp : WikipediaSearchResponse)
    (hu : searchWikipedia upstream = .ok resp) :
    (searchHandler searchQuery "0" upstream render).clientCall =
      some { query := searchQuery, pageSize := 20, offset := -20 } ∧
    (buildSearch searchQuery resp 0).NextPage = 1 ∧
    (buildSearch searchQuery resp 0).CurrentPage = 1 ∧
    (buildSearch searchQuery resp 0).CurrentPage ≠ 0 := by
  have h0 : atoi "0" = .ok 0 := by decide
  refine ⟨?_, rfl, rfl, by simp [buildSearch, Search.CurrentPage]⟩
  simp only [searchHandler]
  rcases hr : render (buildSearch searchQuery resp 0) with m | html <;>
    simp [h0, hu, hr]

/-- C10 witness with a successful upstream response. -/
theorem pageZero_negative_offset_witness :
    searchWikipedia (.response 200 "dump" (.wellFormed sampleResponse)) =
      .ok sampleResponse ∧
    ((searchHandler "golang" "0"
        (.response 200 "dump" (.wellFormed sampleResponse))
        (fun _ => .ok "page")).clientCall =
       some { query := "golang", pageSize := 20, offset := -20 } ∧
     (buildSearch "golang" sampleResponse 0).NextPage = 1 ∧
     (buildSearch "golang" sampleResponse 0).CurrentPage = 1 ∧
     (buildSearch "golang" sampleResponse 0).CurrentPage ≠ 0) :=
  ⟨by decide,
   pageZero_negative_offset "golang"
     (.response 200 "dump" (.wellFormed sampleResponse))
     (fun _ => .ok "page") sampleResponse (by decide)⟩
